/-
Verification of the task-management backend (Express + Postgres).

Shallow embedding of:
  * backend/src/routes/tasks.ts   — owner-scoped task CRUD, filtering, pagination
  * backend/src/routes/auth.ts    — register / login / me (src/unnamed/part_005)
  * backend/src/middleware/auth.ts — bearer-token authentication
  * database schema (src/unnamed/part_003)

Conventions of the embedding:
  * UUIDs are modelled as `Nat` identifiers, TIMESTAMPTZ values as `Nat` ticks.
  * A nullable SQL column is an `Option`; JSON `null` in a response field is
    `Option.none`, a JSON string is `Option.some`.
  * A JS value that may be absent from a request body is an `Option`;
    `due_date`, which may be absent, JSON `null`, or a string, is
    `Option (Option String)` (outer = presence, inner = null vs string).
  * The tasks table is a `List TaskRow` kept in insertion order.
  * `SELECT ... ORDER BY created_at DESC` has no tie-break column, and SQL
    leaves the relative order of equal keys unspecified; the list query is
    therefore modelled as a *relation* (`validListRows`) admitting every
    ordering of the matching rows that is sorted by `created_at` descending.
  * bcrypt and jsonwebtoken are external libraries; they are modelled by
    their contracts (`bhash`/`bcompare`, `Token`/`jwtSign`/`jwtVerify`).
-/
import Mathlib

namespace TaskApp

/-- One row of the `tasks` table (schema in the migration file):
id, user_id, title, nullable description, status, priority,
nullable due_date, created_at, updated_at. -/
structure TaskRow where
  id : Nat
  user_id : Nat
  title : String
  description : Option String
  status : String
  priority : String
  due_date : Option String
  created_at : Nat
  updated_at : Nat
deriving DecidableEq, Repr

/-- `const STATUSES = ["todo", "in_progress", "done"]` in tasks.ts. -/
def STATUSES : List String := ["todo", "in_progress", "done"]

/-- `const PRIORITIES = ["low", "medium", "high"]` in tasks.ts. -/
def PRIORITIES : List String := ["low", "medium", "high"]

/-- Model of JavaScript string trimming (`.trim()`): strip leading and
trailing whitespace.  (`String.trim` of the Lean core is extensionally the
same but is defined by well-founded recursion on `Substring`, which the
kernel cannot evaluate; this structural version keeps the embedding
computable.) -/
def jsTrim (s : String) : String :=
  String.mk (((s.data.dropWhile Char.isWhitespace).reverse.dropWhile
    Char.isWhitespace).reverse)

/-- The JSON object produced by `rowToTask`.  `description` is the JSON
value of the field: `none` would be JSON null, `some s` the string `s`. -/
structure TaskOut where
  id : Nat
  title : String
  description : Option String
  status : String
  priority : String
  due_date : Option String
  created_at : Nat
  updated_at : Nat
  user_id : Nat
deriving DecidableEq, Repr

/-- `rowToTask` in tasks.ts: copies the row, except
`description: row.description ?? ""` — a NULL description is serialized
as the empty string, never as JSON null. -/
def rowToTask (row : TaskRow) : TaskOut :=
  { id := row.id
    title := row.title
    description := some (row.description.getD "")
    status := row.status
    priority := row.priority
    due_date := row.due_date
    created_at := row.created_at
    updated_at := row.updated_at
    user_id := row.user_id }

/-- Responses of the task route handlers. -/
inductive TaskResp where
  | ok (status : Nat) (task : TaskOut)
  | list (data : List TaskOut) (total : Nat) (page : Int) (limit : Int)
  | err (status : Nat) (error : String)
  | noContent
deriving DecidableEq, Repr

/-! ### GET / — list with filters and pagination -/

/-- JS `x || d` on the result of `parseInt`: `none` models an absent or
non-numeric parameter (`parseInt` returned `NaN`), and `0` is falsy, so
both fall back to the default. -/
def jsOrInt (x : Option Int) (d : Int) : Int :=
  match x with
  | none => d
  | some n => if n = 0 then d else n

/-- `Math.max(1, parseInt(String(req.query.page), 10) || 1)`. -/
def effPage (q : Option Int) : Int := max 1 (jsOrInt q 1)

/-- `Math.min(100, Math.max(1, parseInt(String(req.query.limit), 10) || 20))`. -/
def effLimit (q : Option Int) : Int := min 100 (max 1 (jsOrInt q 20))

/-- `const offset = (page - 1) * limit`. -/
def effOffset (qpage qlimit : Option Int) : Int :=
  (effPage qpage - 1) * effLimit qlimit

/-- `if (status && !STATUSES.includes(status))` — the 400 fires only when
the parameter is present, truthy (non-empty) and not in the enumeration. -/
def filterInvalid (q : Option String) (allowed : List String) : Bool :=
  match q with
  | none => false
  | some s => s ≠ "" && !(allowed.contains s)

/-- A filter condition is added to the WHERE clause only when the
parameter is truthy; an empty-string parameter is ignored. -/
def filterCond (q : Option String) (v : String) : Bool :=
  match q with
  | none => true
  | some s => s == "" || v == s

/-- The WHERE clause of the list query:
`user_id = $1 [AND status = $i] [AND priority = $j]`. -/
def taskMatches (uid : Nat) (qs qp : Option String) (r : TaskRow) : Bool :=
  (r.user_id == uid) && filterCond qs r.status && filterCond qp r.priority

/-- Rows sorted by `created_at` descending (ties in any order),
the guarantee `ORDER BY created_at DESC` gives. -/
def sortedByCreatedDesc (l : List TaskRow) : Prop :=
  l.Pairwise (fun a b => b.created_at ≤ a.created_at)

instance (l : List TaskRow) : Decidable (sortedByCreatedDesc l) :=
  inferInstanceAs (Decidable (l.Pairwise _))

/-- Semantics of
`SELECT * FROM tasks WHERE <match> ORDER BY created_at DESC LIMIT l OFFSET o`:
the store may return any page cut from any reordering of the matching rows
that is sorted by `created_at` descending — the relative order of rows with
equal `created_at` is unspecified. -/
def validListRows (uid : Nat) (qs qp : Option String) (qpage qlimit : Option Int)
    (db : List TaskRow) (rows : List TaskRow) : Prop :=
  ∃ sorted : List TaskRow,
    (db.filter (taskMatches uid qs qp)).Perm sorted ∧
    sortedByCreatedDesc sorted ∧
    rows = (sorted.drop (effOffset qpage qlimit).toNat).take (effLimit qlimit).toNat

/-- Semantics of the whole GET / handler: enum validation of the `status`
and `priority` query parameters, then the count query and the page query,
assembled as `{data, total, page, limit}`. -/
def validListResp (uid : Nat) (qs qp : Option String) (qpage qlimit : Option Int)
    (db : List TaskRow) (resp : TaskResp) : Prop :=
  if filterInvalid qs STATUSES then resp = .err 400 "Invalid status"
  else if filterInvalid qp PRIORITIES then resp = .err 400 "Invalid priority"
  else ∃ rows, validListRows uid qs qp qpage qlimit db rows ∧
    resp = .list (rows.map rowToTask) (db.filter (taskMatches uid qs qp)).length
      (effPage qpage) (effLimit qlimit)

/-! ### POST / — create -/

/-- Body of POST /tasks. -/
structure CreateBody where
  title : Option String
  description : Option String
  status : Option String
  priority : Option String
  due_date : Option (Option String)
deriving DecidableEq, Repr

/-- The POST / handler.  `freshId` is the UUID the store generates for the
new row and `now` the insertion timestamp. -/
def createTask (uid : Nat) (b : CreateBody) (db : List TaskRow)
    (freshId now : Nat) : TaskResp × List TaskRow :=
  match b.title with
  | none => (.err 400 "Title is required", db)
  | some t =>
    if t == "" || jsTrim t == "" then (.err 400 "Title is required", db)
    else
      -- const taskStatus = (status?.trim() || "todo")
      let ts := match b.status with
        | some s => if jsTrim s == "" then "todo" else jsTrim s
        | none => "todo"
      let tp := match b.priority with
        | some p => if jsTrim p == "" then "medium" else jsTrim p
        | none => "medium"
      if !(STATUSES.contains ts) then (.err 400 "Invalid status", db)
      else if !(PRIORITIES.contains tp) then (.err 400 "Invalid priority", db)
      else
        -- const dueDate = due_date === null || due_date === "" ? null : due_date
        -- (then `dueDate || null` in the VALUES list)
        let due : Option String := match b.due_date with
          | none => none
          | some none => none
          | some (some s) => if s == "" then none else some s
        -- description?.trim() || null
        let desc : Option String := match b.description with
          | none => none
          | some d => if jsTrim d == "" then none else some (jsTrim d)
        let row : TaskRow :=
          { id := freshId, user_id := uid, title := jsTrim t, description := desc
            status := ts, priority := tp, due_date := due
            created_at := now, updated_at := now }
        (.ok 201 (rowToTask row), db ++ [row])

/-! ### GET /:id -/

/-- `SELECT * FROM tasks WHERE id = $1 AND user_id = $2`, then 404 when no
row, else 200 with `rowToTask(row)`. -/
def getTask (uid id : Nat) (db : List TaskRow) : TaskResp :=
  match db.find? (fun r => r.id == id && r.user_id == uid) with
  | none => .err 404 "Task not found"
  | some row => .ok 200 (rowToTask row)

/-! ### PATCH /:id -/

/-- Body of PATCH /tasks/:id: every field optional; `due_date` may be
present-and-null. -/
structure PatchBody where
  title : Option String
  description : Option String
  status : Option String
  priority : Option String
  due_date : Option (Option String)
deriving DecidableEq, Repr

/-- Number of `$i` placeholders pushed onto `values` — one per present
field (`updated_at = now()` carries no placeholder). -/
def patchPresentCount (b : PatchBody) : Nat :=
  (if b.title.isSome then 1 else 0) + (if b.description.isSome then 1 else 0)
    + (if b.status.isSome then 1 else 0) + (if b.priority.isSome then 1 else 0)
    + (if b.due_date.isSome then 1 else 0)

/-- The SET list applied to a matched row:
`updated_at = now()` always, and each present field —
`title = title.trim()`, `description = description.trim()`,
`status`/`priority` as supplied,
`due_date = (due_date === null || due_date === "" ? null : due_date)`. -/
def applyPatch (b : PatchBody) (now : Nat) (r : TaskRow) : TaskRow :=
  { r with
    updated_at := now
    title := match b.title with | some t => jsTrim t | none => r.title
    description := match b.description with
      | some d => some (jsTrim d)
      | none => r.description
    status := b.status.getD r.status
    priority := b.priority.getD r.priority
    due_date := match b.due_date with
      | some dv => (match dv with
          | none => none
          | some s => if s == "" then none else some s)
      | none => r.due_date }

/-- `status !== undefined && !STATUSES.includes(status)` in the PATCH
handler (no trimming here, unlike POST). -/
def statusBad (b : PatchBody) : Bool :=
  match b.status with
  | some s => !(STATUSES.contains s)
  | none => false

/-- `priority !== undefined && !PRIORITIES.includes(priority)` in the
PATCH handler. -/
def priorityBad (b : PatchBody) : Bool :=
  match b.priority with
  | some p => !(PRIORITIES.contains p)
  | none => false

/-- The PATCH /:id handler: enum validation of supplied `status`/`priority`,
then either the no-field SELECT branch or the conditional
`UPDATE ... WHERE id = $i AND user_id = $j RETURNING *`. -/
def patchTask (uid id : Nat) (b : PatchBody) (db : List TaskRow)
    (now : Nat) : TaskResp × List TaskRow :=
  if statusBad b then
    (.err 400 "Invalid status", db)
  else if priorityBad b then
    (.err 400 "Invalid priority", db)
  else if patchPresentCount b = 0 then
    -- SELECT * FROM tasks WHERE id = $1 AND user_id = $2 (no write at all)
    match db.find? (fun r => r.id == id && r.user_id == uid) with
    | none => (.err 404 "Task not found", db)
    | some row => (.ok 200 (rowToTask row), db)
  else
    let db' := db.map (fun r =>
      if r.id == id && r.user_id == uid then applyPatch b now r else r)
    match db.find? (fun r => r.id == id && r.user_id == uid) with
    | none => (.err 404 "Task not found", db')
    | some row => (.ok 200 (rowToTask (applyPatch b now row)), db')

/-! ### DELETE /:id -/

/-- `DELETE FROM tasks WHERE id = $1 AND user_id = $2`; 404 when
`rowCount === 0`, else 204 with no body. -/
def deleteTask (uid id : Nat) (db : List TaskRow) : TaskResp × List TaskRow :=
  let remaining := db.filter (fun r => !(r.id == id && r.user_id == uid))
  if remaining.length = db.length then (.err 404 "Task not found", db)
  else (.noContent, remaining)

/-! ### Users, bcrypt and JWT (auth.ts routes, src/unnamed/part_005, and
middleware/auth.ts) -/

/-- One row of the `users` table. -/
structure UserRow where
  id : Nat
  email : String
  password_hash : String
  name : Option String
  created_at : Nat
  updated_at : Nat
deriving DecidableEq, Repr

/-- Model of `bcrypt.hash(password, SALT_ROUNDS)`: an injective one-way
map, abstracted as a deterministic tagging (the salt does not matter for
the properties proved here). -/
def bhash (p : String) : String := "$2b$10$" ++ p

/-- Model of `bcrypt.compare(password, hash)`: true exactly when the hash
was produced from this password. -/
def bcompare (p h : String) : Bool := h == bhash p

/-- A signed JWT as issued by `jwt.sign(payload, secret, {expiresIn})`.
The signature is modelled by carrying the signing secret: verification
with a different secret fails. `nbf` is the optional not-before claim
(never set by this app's `sign` call, but checked by `verify`). -/
structure Token where
  userId : Nat
  email : String
  iat : Nat
  exp : Nat
  nbf : Option Nat
  secret : String
deriving DecidableEq, Repr

/-- A string presented as a token on the wire: either a well-formed JWT or
unparseable garbage. -/
inductive Wire where
  | jwt (t : Token)
  | garbage (s : String)
deriving DecidableEq, Repr

/-- The failures `jwt.verify` can report, with the data each carries:
`TokenExpiredError.expiredAt`, `NotBeforeError.date`, and the message of a
generic `JsonWebTokenError`. -/
inductive JwtErr where
  | expired (expiredAt : Nat)
  | notBefore (date : Nat)
  | malformed (message : String)
deriving DecidableEq, Repr

/-- `jwt.sign({userId, email}, secret, {expiresIn: '7d'})` at time `now`
(7 days = 604800 seconds). -/
def jwtSign (userId : Nat) (email : String) (secret : String) (now : Nat) : Token :=
  { userId := userId, email := email, iat := now, exp := now + 604800
    nbf := none, secret := secret }

/-- Model of `jwt.verify(token, secret)` at time `now`: signature check,
then not-before, then expiry; success returns the decoded
`(userId, email)` payload. -/
def jwtVerify (w : Wire) (secret : String) (now : Nat) :
    Except JwtErr (Nat × String) :=
  match w with
  | .garbage _ => .error (.malformed "jwt malformed")
  | .jwt t =>
    if t.secret ≠ secret then .error (.malformed "invalid signature")
    else match t.nbf with
      | some d => if now < d then .error (.notBefore d)
        else if t.exp < now then .error (.expired t.exp) else .ok (t.userId, t.email)
      | none =>
        if t.exp < now then .error (.expired t.exp) else .ok (t.userId, t.email)

/-! ### POST /auth/register -/

/-- Response of POST /auth/register. -/
inductive RegResp where
  | created (id : Nat) (email : String) (name : Option String)
      (created_at updated_at : Nat)
  | err (status : Nat) (error : String)
deriving DecidableEq, Repr

/-- The register handler: required-field check, bcrypt hash, INSERT with
unique-email constraint (23505 → 409).  `none` / `some ""` model the falsy
JS values rejected by `if (!email || !password)`. -/
def register (email password name : Option String) (db : List UserRow)
    (freshId now : Nat) : RegResp × List UserRow :=
  match email, password with
  | some e, some p =>
    if e == "" || p == "" then (.err 400 "Email and password are required", db)
    else if db.any (fun u => u.email == jsTrim e) then
      (.err 409 "Email already registered", db)
    else
      let row : UserRow :=
        { id := freshId, email := jsTrim e, password_hash := bhash p
          name := match name with
            | some n => if jsTrim n == "" then none else some (jsTrim n)
            | none => none
          created_at := now, updated_at := now }
      (.created freshId row.email row.name now now, db ++ [row])
  | _, _ => (.err 400 "Email and password are required", db)

/-! ### POST /auth/login -/

/-- Response of POST /auth/login: `{token, user: {id, email, name}}` on
success. -/
inductive LoginResp where
  | ok (token : Wire) (id : Nat) (email : String) (name : Option String)
  | err (status : Nat) (error : String)
deriving DecidableEq, Repr

/-- The login handler: required-field check, lookup by trimmed email,
bcrypt compare (`if (!row || !compare)` → one shared 401), then the
`config.jwtSecret` presence check and `jwt.sign`.  `secret` is
`config.jwtSecret` (`JWT_SECRET` from the environment per the project
docs; `none` when unset). -/
def login (email password : Option String) (db : List UserRow)
    (secret : Option String) (now : Nat) : LoginResp :=
  match email, password with
  | some e, some p =>
    if e == "" || p == "" then .err 400 "Email and password are required"
    else
      match db.find? (fun u => u.email == jsTrim e) with
      | none => .err 401 "Invalid email or password"
      | some row =>
        if !(bcompare p row.password_hash) then .err 401 "Invalid email or password"
        else match secret with
          | none => .err 500 "Server misconfiguration"
          | some s => .ok (.jwt (jwtSign row.id row.email s now)) row.id row.email row.name
  | _, _ => .err 400 "Email and password are required"

/-! ### AuthMiddleware (middleware/auth.ts) -/

/-- The error payloads the middleware writes: HTTP status, `error`
message, optional `code`, optional `expiredAt` / `validFrom` timestamps,
optional `message` (the jwt library's own text). -/
structure ErrResp where
  status : Nat
  error : String
  code : Option String
  expiredAt : Option Nat
  validFrom : Option Nat
  message : Option String
deriving DecidableEq, Repr

/-- Outcome of `authenticate`: either `req.user = {userId, email}` is
attached and the chain continues, or a JSON error response. -/
inductive AuthResult where
  | ok (userId : Nat) (email : String)
  | err (e : ErrResp)
deriving DecidableEq, Repr

/-- `authHeader?.startsWith('Bearer ') ? authHeader.slice(7) : undefined`,
followed by the `if (!token)` falsiness check (an empty remainder is
falsy). -/
def extractToken (h : Option String) : Option String :=
  match h with
  | none => none
  | some s =>
    if s.startsWith "Bearer " then
      (if s.drop 7 == "" then none else some (s.drop 7))
    else none

def noTokenResp : ErrResp :=
  { status := 401, error := "No token provided", code := none
    expiredAt := none, validFrom := none, message := none }

def misconfigResp : ErrResp :=
  { status := 500, error := "Server misconfiguration", code := none
    expiredAt := none, validFrom := none, message := none }

def expiredResp (d : Nat) : ErrResp :=
  { status := 401, error := "Token expired", code := some "TOKEN_EXPIRED"
    expiredAt := some d, validFrom := none, message := none }

def notBeforeResp (d : Nat) : ErrResp :=
  { status := 401, error := "Token not yet valid", code := some "TOKEN_NOT_ACTIVE"
    expiredAt := none, validFrom := some d, message := none }

def invalidTokenResp (m : String) : ErrResp :=
  { status := 401, error := "Invalid token", code := some "TOKEN_INVALID"
    expiredAt := none, validFrom := none, message := some m }

/-- The `authenticate` middleware.  `decodeWire` interprets the header's
token substring as a JWT (the byte-level parse done inside the jwt
library); `secret` is `config.jwtSecret`. -/
def authenticate (h : Option String) (decodeWire : String → Wire)
    (secret : Option String) (now : Nat) : AuthResult :=
  match extractToken h with
  | none => .err noTokenResp
  | some ts =>
    match secret with
    | none => .err misconfigResp
    | some sec =>
      match jwtVerify (decodeWire ts) sec now with
      | .error (.expired d) => .err (expiredResp d)
      | .error (.notBefore d) => .err (notBeforeResp d)
      | .error (.malformed m) => .err (invalidTokenResp m)
      | .ok (uid, em) => .ok uid em

/-! ## Theorems -/

/-- C7 counterexample: the effective limit is *not* always the supplied
limit clamped to [1,100] — a supplied `limit=0` is falsy in
`parseInt(...) || 20`, so it yields the default 20, while clamping 0 to
[1,100] would give 1. -/
theorem C7_limit_zero_cex :
    effLimit (some 0) = 20 ∧ min 100 (max 1 (0 : Int)) = 1 ∧
      effLimit (some 0) ≠ min 100 (max 1 (0 : Int)) := by
  decide

/-- C7 (amended): `limit` absent (or non-numeric) defaults to 20 and a
supplied `limit=0` also falls back to 20 (it is falsy); every other
supplied limit clamps to [1,100]; `page` clamps to a minimum of 1 in all
cases; offset = (page-1)·limit; in particular `limit=500` behaves as 100
and `page=0` or negative behaves as 1. -/
theorem C7_pagination_clamps :
    effLimit none = 20 ∧
    effLimit (some 0) = 20 ∧
    (∀ l : Int, l ≠ 0 → effLimit (some l) = min 100 (max 1 l)) ∧
    effPage none = 1 ∧
    (∀ p : Int, effPage (some p) = max 1 p) ∧
    (∀ qpage qlimit : Option Int,
      effOffset qpage qlimit = (effPage qpage - 1) * effLimit qlimit) ∧
    effLimit (some 500) = 100 ∧
    effPage (some 0) = 1 ∧
    (∀ p : Int, p ≤ 0 → effPage (some p) = 1) := by
  refine ⟨rfl, rfl, ?_, rfl, ?_, fun _ _ => rfl, rfl, rfl, ?_⟩
  · intro l hl
    simp [effLimit, jsOrInt, hl]
  · intro p
    rcases eq_or_ne p 0 with rfl | h
    · decide
    · simp [effPage, jsOrInt, h]
  · intro p hp
    rcases eq_or_ne p 0 with rfl | h
    · decide
    · simp only [effPage, jsOrInt, h, if_neg h]
      omega

theorem C7_pagination_clamps_witness :
    effLimit (some 500) = min 100 (max 1 (500 : Int)) :=
  C7_pagination_clamps.2.2.1 500 (by decide)

/-- C10: in both create and update, a supplied `due_date` of JSON null or
of the empty string is stored as NULL (clearing the field on update),
while an update that omits `due_date` leaves every row's stored
`due_date` unchanged. -/
theorem C10_due_date_null (uid id : Nat) (b : CreateBody) (pb : PatchBody)
    (db : List TaskRow) (freshId now : Nat) :
    ((b.due_date = some none ∨ b.due_date = some (some "")) →
      ∀ r ∈ (createTask uid b db freshId now).2, r ∈ db ∨ r.due_date = none) ∧
    ((pb.due_date = some none ∨ pb.due_date = some (some "")) →
      ∀ r ∈ (patchTask uid id pb db now).2, r ∈ db ∨ r.due_date = none) ∧
    (pb.due_date = none →
      ((patchTask uid id pb db now).2).map TaskRow.due_date
        = db.map TaskRow.due_date) := by
  refine ⟨?_, ?_, ?_⟩
  · intro hd r hr
    cases hb : b.title with
    | none => simp [createTask, hb] at hr; exact Or.inl hr
    | some t =>
      simp only [createTask, hb] at hr
      split at hr
      · exact Or.inl hr
      · split at hr
        · exact Or.inl hr
        · split at hr
          · exact Or.inl hr
          · simp only [List.mem_append, List.mem_singleton] at hr
            rcases hr with hr | hr
            · exact Or.inl hr
            · refine Or.inr ?_
              subst hr
              rcases hd with hd | hd <;> simp [hd]
  · intro hd r hr
    simp only [patchTask] at hr
    split at hr
    · exact Or.inl hr
    · split at hr
      · exact Or.inl hr
      · split at hr
        · split at hr <;> exact Or.inl hr
        · have hr2 : r ∈ db.map (fun r =>
              if r.id == id && r.user_id == uid then applyPatch pb now r else r) := by
            split at hr <;> exact hr
          simp only [List.mem_map] at hr2
          obtain ⟨a, ha, hfa⟩ := hr2
          by_cases hm : (a.id == id && a.user_id == uid) = true
          · rw [if_pos hm] at hfa
            refine Or.inr ?_
            subst hfa
            rcases hd with hd | hd <;> simp [applyPatch, hd]
          · rw [if_neg hm] at hfa
            subst hfa
            exact Or.inl ha
  · intro hd
    simp only [patchTask]
    split
    · rfl
    · split
      · rfl
      · split
        · split <;> rfl
        · have : ∀ resp : TaskResp, ((resp, db.map (fun r =>
              if r.id == id && r.user_id == uid then applyPatch pb now r else r)).2).map
                TaskRow.due_date = db.map TaskRow.due_date := by
            intro resp
            simp only [List.map_map]
            refine List.map_congr_left (fun a _ => ?_)
            simp only [Function.comp_apply]
            split
            · simp [applyPatch, hd]
            · rfl
          split <;> exact this _

theorem C10_due_date_null_witness :
    ∀ r ∈ (createTask 1 ⟨some "Buy milk", none, none, none, some none⟩ [] 4 9).2,
      r ∈ ([] : List TaskRow) ∨ r.due_date = none :=
  (C10_due_date_null 1 1 ⟨some "Buy milk", none, none, none, some none⟩
    ⟨none, none, none, none, none⟩ [] 4 9).1 (Or.inl rfl)

/-- C4 counterexample: create with description omitted persists
`description = NULL`, but the returned record passes through `rowToTask`,
whose `row.description ?? ""` renders the field as the empty string — so
the returned record is not equal to the persisted row and its description
is not null. -/
theorem C4_description_serialization_cex :
    (createTask 1 ⟨some "Buy milk", none, none, none, none⟩ [] 1 0).2
      = [⟨1, 1, "Buy milk", none, "todo", "medium", none, 0, 0⟩] ∧
    (createTask 1 ⟨some "Buy milk", none, none, none, none⟩ [] 1 0).1
      = .ok 201 (rowToTask ⟨1, 1, "Buy milk", none, "todo", "medium", none, 0, 0⟩) ∧
    (⟨1, 1, "Buy milk", none, "todo", "medium", none, 0, 0⟩ : TaskRow).description
      = none ∧
    (rowToTask ⟨1, 1, "Buy milk", none, "todo", "medium", none, 0, 0⟩).description
      = some "" ∧
    some "" ≠ (none : Option String) := by
  decide

/-- C4 (amended): create with status, priority, description and due_date
omitted persists a row with `status="todo"`, `priority="medium"`,
`description=NULL`, `due_date=NULL`, carrying the generated id and
timestamps; the returned record equals the persisted row in every field
*except* description, which is serialized as `""` instead of null. -/
theorem C4_create_defaults (uid : Nat) (db : List TaskRow) (freshId now : Nat)
    (t : String) (ht : jsTrim t ≠ "") :
    createTask uid ⟨some t, none, none, none, none⟩ db freshId now =
      (.ok 201 (rowToTask ⟨freshId, uid, jsTrim t, none, "todo", "medium", none, now, now⟩),
       db ++ [⟨freshId, uid, jsTrim t, none, "todo", "medium", none, now, now⟩]) ∧
    rowToTask ⟨freshId, uid, jsTrim t, none, "todo", "medium", none, now, now⟩
      = ⟨freshId, jsTrim t, some "", "todo", "medium", none, now, now, uid⟩ := by
  have ht0 : t ≠ "" := by
    intro h
    apply ht
    rw [h]
    decide
  constructor
  · simp [createTask, ht0, ht, STATUSES, PRIORITIES]
  · simp [rowToTask]

theorem C4_create_defaults_witness :
    createTask 3 ⟨some "Buy milk", none, none, none, none⟩ [] 8 2 =
      (.ok 201 (rowToTask ⟨8, 3, jsTrim "Buy milk", none, "todo", "medium", none, 2, 2⟩),
       [⟨8, 3, jsTrim "Buy milk", none, "todo", "medium", none, 2, 2⟩]) :=
  (C4_create_defaults 3 [] 8 2 "Buy milk" (by decide)).1

/-- C5 counterexample: an update may break title non-emptiness — PATCH
with a whitespace-only title on a task whose stored title is non-empty
succeeds and stores the empty string (the PATCH handler never validates
the title). -/
theorem C5_patch_empty_title_cex :
    (patchTask 1 1 ⟨some "   ", none, none, none, none⟩
        [⟨1, 1, "Buy milk", none, "todo", "medium", none, 0, 0⟩] 7).2
      = [⟨1, 1, "", none, "todo", "medium", none, 0, 7⟩] ∧
    (patchTask 1 1 ⟨some "   ", none, none, none, none⟩
        [⟨1, 1, "Buy milk", none, "todo", "medium", none, 0, 0⟩] 7).1
      = .ok 200 (rowToTask ⟨1, 1, "", none, "todo", "medium", none, 0, 7⟩) ∧
    (⟨1, 1, "Buy milk", none, "todo", "medium", none, 0, 0⟩ : TaskRow).title ≠ "" ∧
    (⟨1, 1, "", none, "todo", "medium", none, 0, 7⟩ : TaskRow).title = "" := by
  decide

/-- C5 (amended): create with an empty or whitespace-only title fails with
the 400 validation error and persists no row; but update does *not*
re-validate the title — a supplied title is stored trimmed with no
emptiness check, so an update can store an empty title. -/
theorem C5_title_validation (uid : Nat) (b : CreateBody) (db : List TaskRow)
    (freshId now : Nat) :
    ((b.title = none ∨ ∃ t, b.title = some t ∧ jsTrim t = "") →
      createTask uid b db freshId now = (.err 400 "Title is required", db)) ∧
    (∀ pb : PatchBody, ∀ t : String, pb.title = some t →
      ∀ r : TaskRow, (applyPatch pb now r).title = jsTrim t) := by
  constructor
  · rintro (h | ⟨t, h, htr⟩)
    · simp [createTask, h]
    · simp [createTask, h, htr]
  · intro pb t h r
    simp [applyPatch, h]

theorem C5_title_validation_witness :
    createTask 1 ⟨some "   ", none, none, none, none⟩ [] 1 0
      = (.err 400 "Title is required", []) :=
  (C5_title_validation 1 ⟨some "   ", none, none, none, none⟩ [] 1 0).1
    (Or.inr ⟨"   ", rfl, by decide⟩)

/-- C3 counterexample: a no-field PATCH does not refresh `updated_at` —
it takes the SELECT branch, returning the stored record with its old
`updated_at` and leaving the table untouched. -/
theorem C3_no_field_update_cex :
    patchTask 1 1 ⟨none, none, none, none, none⟩
        [⟨1, 1, "Buy milk", none, "todo", "medium", none, 0, 5⟩] 10
      = (.ok 200 (rowToTask ⟨1, 1, "Buy milk", none, "todo", "medium", none, 0, 5⟩),
         [⟨1, 1, "Buy milk", none, "todo", "medium", none, 0, 5⟩]) ∧
    (rowToTask ⟨1, 1, "Buy milk", none, "todo", "medium", none, 0, 5⟩).updated_at = 5 ∧
    (5 : Nat) ≠ 10 := by
  decide

/-- C3 (amended): in an update, only the fields explicitly present in the
input are modified and absent fields keep their stored values;
`updated_at` is refreshed on every successful *field-carrying* write; a
no-field update still re-validates ownership (404 when the row is absent
or not owned) and returns the current record, but leaves the table — and
hence `updated_at` — unchanged.  Rows not matching `(id, owner)` are never
touched. -/
theorem C3_partial_update_frame (uid id : Nat) (b : PatchBody)
    (db : List TaskRow) (now : Nat)
    (hs : statusBad b = false) (hp : priorityBad b = false) :
    (patchPresentCount b = 0 →
      patchTask uid id b db now =
        ((match db.find? (fun r => r.id == id && r.user_id == uid) with
          | none => TaskResp.err 404 "Task not found"
          | some row => TaskResp.ok 200 (rowToTask row)), db)) ∧
    (patchPresentCount b ≠ 0 →
      ∀ row, db.find? (fun r => r.id == id && r.user_id == uid) = some row →
        patchTask uid id b db now =
          (.ok 200 (rowToTask (applyPatch b now row)),
           db.map (fun r =>
             if r.id == id && r.user_id == uid then applyPatch b now r else r)) ∧
        (applyPatch b now row).updated_at = now ∧
        (b.title = none → (applyPatch b now row).title = row.title) ∧
        (b.description = none →
          (applyPatch b now row).description = row.description) ∧
        (b.status = none → (applyPatch b now row).status = row.status) ∧
        (b.priority = none → (applyPatch b now row).priority = row.priority) ∧
        (b.due_date = none → (applyPatch b now row).due_date = row.due_date) ∧
        (applyPatch b now row).created_at = row.created_at ∧
        (applyPatch b now row).id = row.id ∧
        (applyPatch b now row).user_id = row.user_id) ∧
    (∀ r ∈ db, (r.id == id && r.user_id == uid) = false →
      r ∈ (patchTask uid id b db now).2) := by
  refine ⟨?_, ?_, ?_⟩
  · intro h0
    simp only [patchTask, hs, hp, h0]
    cases hfind : db.find? (fun r => r.id == id && r.user_id == uid) <;> simp
  · intro hne row hfind
    simp only [patchTask, hs, hp, hne, hfind]
    refine ⟨by simp, by simp [applyPatch], ?_, ?_, ?_, ?_, ?_,
      by simp [applyPatch], by simp [applyPatch], by simp [applyPatch]⟩
      <;> intro h <;> simp [applyPatch, h]
  · intro r hr hnm
    have hne : ¬ ((r.id == id && r.user_id == uid) = true) := by
      rw [hnm]
      exact Bool.false_ne_true
    simp only [patchTask, hs, hp, Bool.false_eq_true, if_false]
    split
    · split <;> exact hr
    · split <;> exact List.mem_map.mpr ⟨r, hr, if_neg hne⟩

theorem C3_partial_update_frame_witness :
    patchTask 1 1 ⟨none, none, none, none, none⟩ ([] : List TaskRow) 9
      = (.err 404 "Task not found", []) := by
  have h := (C3_partial_update_frame 1 1 ⟨none, none, none, none, none⟩ [] 9
    (by decide) (by decide)).1 (by decide)
  simpa using h

/-- C1: row-level scoping.  When no row of the table pairs this id with
this caller — the id does not exist at all, *or* the task with this id is
owned by someone else — `get`, `update` (with a body passing enum
validation) and `delete` all return the same 404 `{error: "Task not
found"}` response and leave the table unchanged; and `list` under this
caller only ever returns rows whose `user_id` is the caller, for every
status/priority filter and page/limit combination. -/
theorem C1_row_level_scoping (uid id : Nat) (db : List TaskRow) (b : PatchBody)
    (now : Nat)
    (hno : ∀ r ∈ db, (r.id == id && r.user_id == uid) = false)
    (hs : statusBad b = false) (hp : priorityBad b = false) :
    getTask uid id db = .err 404 "Task not found" ∧
    patchTask uid id b db now = (.err 404 "Task not found", db) ∧
    deleteTask uid id db = (.err 404 "Task not found", db) ∧
    (∀ (qs qp : Option String) (qpage qlimit : Option Int) rows,
      validListRows uid qs qp qpage qlimit db rows →
      ∀ r ∈ rows, r.user_id = uid) := by
  have hfind : db.find? (fun r => r.id == id && r.user_id == uid) = none :=
    List.find?_eq_none.mpr (fun r hr => by
      rw [hno r hr]
      exact Bool.false_ne_true)
  refine ⟨?_, ?_, ?_, ?_⟩
  · simp [getTask, hfind]
  · have hmap : db.map (fun r =>
        if r.id == id && r.user_id == uid then applyPatch b now r else r) = db := by
      calc db.map (fun r =>
            if r.id == id && r.user_id == uid then applyPatch b now r else r)
          = db.map (fun a => a) :=
            List.map_congr_left (fun a ha => if_neg (by
              rw [hno a ha]
              exact Bool.false_ne_true))
        _ = db := List.map_id' db
    simp only [patchTask, hs, hp, Bool.false_eq_true, if_false, hfind, hmap]
    split <;> rfl
  · have hfilter : db.filter (fun r => !(r.id == id && r.user_id == uid)) = db :=
      List.filter_eq_self.mpr (fun a ha => by rw [hno a ha]; rfl)
    simp only [deleteTask]
    rw [hfilter]
    simp
  · rintro qs qp qpage qlimit rows ⟨sorted, hperm, _, hrows⟩ r hrrows
    subst hrows
    have hrs : r ∈ sorted :=
      (((List.take_sublist _ _).trans (List.drop_sublist _ _))).mem hrrows
    have hmem : r ∈ db.filter (taskMatches uid qs qp) := hperm.mem_iff.mpr hrs
    have hm := (List.mem_filter.mp hmem).2
    simp only [taskMatches, Bool.and_eq_true, beq_iff_eq] at hm
    exact hm.1.1

theorem C1_row_level_scoping_witness :
    getTask 1 5 [⟨5, 2, "other owner", none, "todo", "medium", none, 0, 0⟩]
      = .err 404 "Task not found" :=
  (C1_row_level_scoping 1 5 [⟨5, 2, "other owner", none, "todo", "medium", none, 0, 0⟩]
    ⟨none, none, none, none, none⟩ 0 (by decide) (by decide) (by decide)).1

/-- C6 counterexample: the list query has no deterministic tie-break.  On
a table holding two tasks of the same owner with equal `created_at`
(inserted id 1 first, id 2 second), both `[id 2, id 1]` and the
insertion-order page `[id 1, id 2]` are valid results of
`ORDER BY created_at DESC` — the page returned among ties is not
determined, and in particular need not follow insertion order. -/
theorem C6_tie_break_cex :
    validListRows 1 none none none none
        [⟨1, 1, "a", none, "todo", "medium", none, 100, 100⟩,
         ⟨2, 1, "b", none, "todo", "medium", none, 100, 100⟩]
        [⟨2, 1, "b", none, "todo", "medium", none, 100, 100⟩,
         ⟨1, 1, "a", none, "todo", "medium", none, 100, 100⟩] ∧
    validListRows 1 none none none none
        [⟨1, 1, "a", none, "todo", "medium", none, 100, 100⟩,
         ⟨2, 1, "b", none, "todo", "medium", none, 100, 100⟩]
        [⟨1, 1, "a", none, "todo", "medium", none, 100, 100⟩,
         ⟨2, 1, "b", none, "todo", "medium", none, 100, 100⟩] ∧
    ([⟨2, 1, "b", none, "todo", "medium", none, 100, 100⟩,
      ⟨1, 1, "a", none, "todo", "medium", none, 100, 100⟩] : List TaskRow)
      ≠ [⟨1, 1, "a", none, "todo", "medium", none, 100, 100⟩,
         ⟨2, 1, "b", none, "todo", "medium", none, 100, 100⟩] := by
  refine ⟨⟨[⟨2, 1, "b", none, "todo", "medium", none, 100, 100⟩,
            ⟨1, 1, "a", none, "todo", "medium", none, 100, 100⟩],
           by decide, by decide, by decide⟩,
          ⟨[⟨1, 1, "a", none, "todo", "medium", none, 100, 100⟩,
            ⟨2, 1, "b", none, "todo", "medium", none, 100, 100⟩],
           by decide, by decide, by decide⟩,
          by decide⟩

/-- C6 (amended): every page the list query may return is ordered by
creation time descending; but there is no deterministic tie-break — the
relative order of tasks sharing a `created_at` is unspecified (see the
counterexample), so pagination across pages is not guaranteed stable in
the presence of ties. -/
theorem C6_list_sorted_desc (uid : Nat) (qs qp : Option String)
    (qpage qlimit : Option Int) (db rows : List TaskRow)
    (h : validListRows uid qs qp qpage qlimit db rows) :
    sortedByCreatedDesc rows := by
  obtain ⟨sorted, _, hsort, hrows⟩ := h
  subst hrows
  exact hsort.sublist ((List.take_sublist _ _).trans (List.drop_sublist _ _))

theorem C6_list_sorted_desc_witness :
    sortedByCreatedDesc [⟨1, 1, "a", none, "todo", "medium", none, 5, 5⟩] :=
  C6_list_sorted_desc 1 none none none none
    [⟨1, 1, "a", none, "todo", "medium", none, 5, 5⟩]
    [⟨1, 1, "a", none, "todo", "medium", none, 5, 5⟩]
    ⟨[⟨1, 1, "a", none, "todo", "medium", none, 5, 5⟩],
     by decide, by decide, by decide⟩

/-- C2: for every valid (email, password) pair (both non-empty, email not
yet registered), `register` succeeds with a fresh user id, a subsequent
`login` with the same pair succeeds and returns a signed token, and
verifying that token (any time within the 7-day window) decodes to
exactly the user id that `register` created. -/
theorem C2_register_login_verify (db : List UserRow) (email pw : String)
    (name : Option String) (freshId now now2 : Nat) (secret : String)
    (he : email ≠ "") (hpw : pw ≠ "")
    (hfresh : ∀ u ∈ db, u.email ≠ jsTrim email)
    (hnow : now2 ≤ now + 604800) :
    (∃ nm, (register (some email) (some pw) name db freshId now).1
        = .created freshId (jsTrim email) nm now now) ∧
    (∃ w nm, login (some email) (some pw)
        (register (some email) (some pw) name db freshId now).2 (some secret) now
        = .ok w freshId (jsTrim email) nm ∧
      jwtVerify w secret now2 = .ok (freshId, jsTrim email)) := by
  have he' : (email == "") = false := beq_eq_false_iff_ne.mpr he
  have hpw' : (pw == "") = false := beq_eq_false_iff_ne.mpr hpw
  have hany : db.any (fun u => u.email == jsTrim email) = false := by
    rw [List.any_eq_false]
    intro u hu
    simp [hfresh u hu]
  have hreg : register (some email) (some pw) name db freshId now =
      (.created freshId (jsTrim email)
        (match name with
          | some n => if jsTrim n == "" then none else some (jsTrim n)
          | none => none) now now,
       db ++ [⟨freshId, jsTrim email, bhash pw,
         (match name with
           | some n => if jsTrim n == "" then none else some (jsTrim n)
           | none => none), now, now⟩]) := by
    simp [register, he', hpw', hany]
  have hdbnone : db.find? (fun u => u.email == jsTrim email) = none :=
    List.find?_eq_none.mpr (fun u hu => by simp [hfresh u hu])
  constructor
  · exact ⟨_, by rw [hreg]⟩
  · refine ⟨.jwt (jwtSign freshId (jsTrim email) secret now),
      (match name with
        | some n => if jsTrim n == "" then none else some (jsTrim n)
        | none => none), ?_, ?_⟩
    · rw [hreg]
      simp [login, he', hpw', hdbnone, bcompare]
      cases name <;> rfl
    · have hexp : ¬ (now + 604800 < now2) := by omega
      simp [jwtVerify, jwtSign, hexp]

theorem C2_register_login_verify_witness :
    (∃ nm, (register (some "a@b.c") (some "pw") none [] 7 0).1
        = .created 7 (jsTrim "a@b.c") nm 0 0) ∧
    (∃ w nm, login (some "a@b.c") (some "pw")
        (register (some "a@b.c") (some "pw") none [] 7 0).2 (some "s") 0
        = .ok w 7 (jsTrim "a@b.c") nm ∧
      jwtVerify w "s" 100 = .ok (7, jsTrim "a@b.c")) :=
  C2_register_login_verify [] "a@b.c" "pw" none 7 0 100 "s"
    (by decide) (by decide) (by decide) (by decide)

/-- C8: a login with an unknown email and a login with a wrong password
for an existing email produce literally the same failure — status 401
with the message "Invalid email or password" — so the two causes are
indistinguishable to the caller. -/
theorem C8_login_indistinguishable (db : List UserRow) (e1 p1 e2 p2 : String)
    (u : UserRow) (secret : Option String) (now : Nat)
    (he1 : e1 ≠ "") (hp1 : p1 ≠ "") (he2 : e2 ≠ "") (hp2 : p2 ≠ "")
    (hunknown : db.find? (fun v => v.email == jsTrim e1) = none)
    (hfound : db.find? (fun v => v.email == jsTrim e2) = some u)
    (hwrong : bcompare p2 u.password_hash = false) :
    login (some e1) (some p1) db secret now
      = .err 401 "Invalid email or password" ∧
    login (some e2) (some p2) db secret now
      = .err 401 "Invalid email or password" ∧
    login (some e1) (some p1) db secret now
      = login (some e2) (some p2) db secret now := by
  have h1 : login (some e1) (some p1) db secret now
      = .err 401 "Invalid email or password" := by
    simp [login, beq_eq_false_iff_ne.mpr he1, beq_eq_false_iff_ne.mpr hp1,
      hunknown]
  have h2 : login (some e2) (some p2) db secret now
      = .err 401 "Invalid email or password" := by
    simp [login, beq_eq_false_iff_ne.mpr he2, beq_eq_false_iff_ne.mpr hp2,
      hfound, hwrong]
  exact ⟨h1, h2, h1.trans h2.symm⟩

theorem C8_login_indistinguishable_witness :
    login (some "x@y") (some "p") [⟨1, "a@b", bhash "right", none, 0, 0⟩]
      (some "s") 0 = .err 401 "Invalid email or password" ∧
    login (some "a@b") (some "wrong") [⟨1, "a@b", bhash "right", none, 0, 0⟩]
      (some "s") 0 = .err 401 "Invalid email or password" :=
  ⟨(C8_login_indistinguishable [⟨1, "a@b", bhash "right", none, 0, 0⟩]
      "x@y" "p" "a@b" "wrong" ⟨1, "a@b", bhash "right", none, 0, 0⟩
      (some "s") 0 (by decide) (by decide) (by decide) (by decide)
      (by decide) (by decide) (by decide)).1,
   (C8_login_indistinguishable [⟨1, "a@b", bhash "right", none, 0, 0⟩]
      "x@y" "p" "a@b" "wrong" ⟨1, "a@b", bhash "right", none, 0, 0⟩
      (some "s") 0 (by decide) (by decide) (by decide) (by decide)
      (by decide) (by decide) (by decide)).2.1⟩

/-- C9: the middleware answers `No token provided` whenever the
Authorization header is absent or is not a "Bearer ..." value; on a token
verification failure it returns exactly the response for that failure —
`Token expired` carrying the expiry timestamp and code TOKEN_EXPIRED,
`Token not yet valid` carrying the not-before date and code
TOKEN_NOT_ACTIVE, or `Invalid token` carrying the library message and code
TOKEN_INVALID — and these codes are pairwise distinct. -/
theorem C9_auth_middleware (h : Option String) (decodeWire : String → Wire)
    (secret : String) (now : Nat) :
    ((h = none ∨ ∃ s, h = some s ∧ ¬ s.startsWith "Bearer ") →
      authenticate h decodeWire (some secret) now = .err noTokenResp) ∧
    (∀ ts d, extractToken h = some ts →
      jwtVerify (decodeWire ts) secret now = .error (.expired d) →
      authenticate h decodeWire (some secret) now = .err (expiredResp d)) ∧
    (∀ ts d, extractToken h = some ts →
      jwtVerify (decodeWire ts) secret now = .error (.notBefore d) →
      authenticate h decodeWire (some secret) now = .err (notBeforeResp d)) ∧
    (∀ ts m, extractToken h = some ts →
      jwtVerify (decodeWire ts) secret now = .error (.malformed m) →
      authenticate h decodeWire (some secret) now = .err (invalidTokenResp m)) ∧
    (∀ d, (expiredResp d).expiredAt = some d) ∧
    (∀ d, (notBeforeResp d).validFrom = some d) ∧
    (∀ d d' m, (expiredResp d).code ≠ (notBeforeResp d').code ∧
      (expiredResp d).code ≠ (invalidTokenResp m).code ∧
      (notBeforeResp d').code ≠ (invalidTokenResp m).code ∧
      noTokenResp.code ≠ (expiredResp d).code ∧
      noTokenResp.code ≠ (notBeforeResp d').code ∧
      noTokenResp.code ≠ (invalidTokenResp m).code) := by
  refine ⟨?_, ?_, ?_, ?_, fun d => rfl, fun d => rfl, fun d d' m => ?_⟩
  · intro hcase
    have hex : extractToken h = none := by
      rcases hcase with rfl | ⟨s, rfl, hns⟩
      · rfl
      · simp [extractToken, hns]
    simp [authenticate, hex]
  · intro ts d hex hver
    simp [authenticate, hex, hver]
  · intro ts d hex hver
    simp [authenticate, hex, hver]
  · intro ts m hex hver
    simp [authenticate, hex, hver]
  · refine ⟨?_, ?_, ?_, ?_, ?_, ?_⟩ <;> simp [expiredResp, notBeforeResp,
      invalidTokenResp, noTokenResp]

theorem C9_auth_middleware_witness :
    authenticate none (fun s => Wire.garbage s) (some "s") 0
      = .err noTokenResp :=
  (C9_auth_middleware none (fun s => Wire.garbage s) "s" 0).1 (Or.inl rfl)

end TaskApp
